import Mathlib

/-!
Formal model of the PersonalScraper ingestion API (src/api/main.py together
with the schema of src/api/database.py), as a shallow embedding.

Modelling conventions:
* `datetime` values are modelled as abstract integer instants (`Int`); each
  request is given the instant `now` at which `datetime.now()` /
  `datetime.utcnow()` is sampled.  `BrowsingHistory.last_visit_time` is stored
  via `datetime.fromtimestamp(lastVisitTime / 1000)`; we keep the original
  epoch-millisecond integer as the model of the resulting instant, since the
  conversion is a fixed monotone re-scaling.
* `uuid4` primary keys are modelled by a fresh-id counter `nextId` on the
  database state; freshness is the only property of `uuid4` the code relies
  on.  Rows whose primary key is never read back (cookies, top sites,
  geolocations, browsing history) are modelled without the key column.
* The SQLAlchemy session is created with `autoflush=False`; `db.flush()` is
  called only after adding the `Website` and the `Visit`.  Hence, inside one
  request, the `.first()` queries for cookies, top sites and browsing history
  see only rows that existed in the database when the request began, while
  in-place mutations of rows returned by those queries are visible to later
  queries of the same request (SQLAlchemy identity map).  We model this with
  a (committed, pending-inserts) pair threaded through each loop: lookups
  search the committed part, newly `db.add`ed rows accumulate in the pending
  part, and `db.commit()` concatenates the two.
* Raw HTML (`VisitData.content`) is modelled as an already-parsed list of
  inline markup nodes (`HtmlNode`), since the only processing applied to it
  is the `markdownify` call in `clean_content`.
* The Chroma collection is modelled as a list of `VectorRecord`s;
  `collection.add` appends.  The embedding vector itself carries no
  information used by any endpoint, so it is not modelled.
-/

/-- Row of the `websites` table (src/api/database.py, class `Website`):
url (unique), `latest_version` defaulting to 0, and a surrogate primary key. -/
structure WebsiteRow where
  id : Nat
  url : String
  latestVersion : Int
deriving Repr, DecidableEq

/-- Row of the `visits` table (src/api/database.py, class `Visit`). -/
structure VisitRow where
  id : Nat
  websiteId : Nat
  timestamp : Int
  version : Int
  contentHash : String
  cleanedContent : String
  title : String
  isBookmarked : Bool
  idleState : String
deriving Repr, DecidableEq

/-- Row of the `geolocations` table (src/api/database.py, class `Geolocation`).
Latitude/longitude come from `geolocation.get(...)` on a client dict, so each
may be absent; coordinates are modelled as integers (their numeric value is
never computed with). -/
structure GeolocationRow where
  visitId : Nat
  latitude : Option Int
  longitude : Option Int
deriving Repr, DecidableEq

/-- Row of the `cookies` table together with its `website_cookie` association
rows (src/api/database.py, classes `Cookie` and table `website_cookie`):
`websites` is the list of website ids associated to this cookie. -/
structure CookieRow where
  name : String
  domain : String
  path : String
  cookieRaw : String
  lastSeen : Int
  websites : List Nat
deriving Repr, DecidableEq

/-- Row of the `top_sites` table together with its `website_topsite`
association rows (src/api/database.py, classes `TopSite`, `website_topsite`). -/
structure TopSiteRow where
  url : String
  title : String
  lastSeen : Int
  websites : List Nat
deriving Repr, DecidableEq

/-- Row of the `browsing_history` table (src/api/database.py,
class `BrowsingHistory`). -/
structure HistoryRow where
  url : String
  title : String
  lastVisitTime : Int
  visitCount : Int
deriving Repr, DecidableEq

/-- One record of the Chroma collection `web_history` as written by
`collection.add` in `record_visit` (src/api/main.py lines 142-153): the
document is the cleaned content, the id is `str(new_visit.id)`, and the
metadata fields are url, title, timestamp and version. -/
structure VectorRecord where
  id : String
  document : String
  url : String
  title : String
  timestamp : Int
  version : Int
deriving Repr, DecidableEq

/-- The committed relational database state. -/
structure DB where
  websites : List WebsiteRow
  visits : List VisitRow
  geolocations : List GeolocationRow
  cookies : List CookieRow
  topSites : List TopSiteRow
  histories : List HistoryRow
  nextId : Nat
deriving Repr, DecidableEq

/-- Full persistent state: the relational database plus the Chroma
collection. -/
structure Store where
  db : DB
  collection : List VectorRecord
deriving Repr, DecidableEq

/-- The state of a fresh deployment: empty tables, empty collection. -/
def emptyStore : Store :=
  { db := { websites := [], visits := [], geolocations := [], cookies := [],
            topSites := [], histories := [], nextId := 0 },
    collection := [] }

/-- One entry of `metadata["cookies"]` (a client dict with name, domain, path
and the raw cookie payload, modelled opaquely as a string). -/
structure CookieData where
  name : String
  domain : String
  path : String
  raw : String
deriving Repr, DecidableEq

/-- One entry of `metadata["topSites"]`. -/
structure TopSiteData where
  url : String
  title : String
deriving Repr, DecidableEq

/-- One entry of `metadata["recentHistory"]`; `lastVisitTime` is the client's
epoch-millisecond timestamp. -/
structure HistoryItem where
  url : String
  title : String
  lastVisitTime : Int
deriving Repr, DecidableEq

/-- The `metadata["geolocation"]` dict; `dict.get` makes each coordinate
optional. -/
structure GeolocationData where
  latitude : Option Int
  longitude : Option Int
deriving Repr, DecidableEq

/-- The loosely-typed `metadata` dict of a visit request.  Every field may be
absent; `record_visit` reads them with `metadata.get(key, default)`, which is
modelled with `Option.getD` at the use sites. -/
structure VisitMetadata where
  isBookmarked : Option Bool
  idleState : Option String
  geolocation : Option GeolocationData
  cookies : Option (List CookieData)
  topSites : Option (List TopSiteData)
  recentHistory : Option (List HistoryItem)
deriving Repr, DecidableEq

/-- A metadata dict with every optional key absent. -/
def VisitMetadata.emptyMeta : VisitMetadata :=
  { isBookmarked := none, idleState := none, geolocation := none,
    cookies := none, topSites := none, recentHistory := none }

/-- Inline markup node of the raw HTML payload: plain text, an anchor
`<a href=...>body</a>`, or an image `<img src=... alt=...>`. -/
inductive HtmlNode where
  | text (s : String)
  | anchor (href : String) (body : String)
  | image (src : String) (alt : String)
deriving Repr, DecidableEq

/-- Behaviour of the third-party `markdownify` dependency on the inline
fragment model: text passes through, an anchor becomes `[body](href)`, an
image becomes `![alt](src)`.  The href/src reference values are copied into
the output verbatim; `markdownify` receives no base URL and performs no URL
resolution. -/
def markdownify : List HtmlNode → String
  | [] => ""
  | HtmlNode.text s :: rest => s ++ markdownify rest
  | HtmlNode.anchor href body :: rest =>
      "[" ++ body ++ "](" ++ href ++ ")" ++ markdownify rest
  | HtmlNode.image src alt :: rest =>
      "!" ++ "[" ++ alt ++ "](" ++ src ++ ")" ++ markdownify rest

/-- The `VisitData` pydantic request model (src/api/main.py lines 36-43). -/
structure VisitData where
  timestamp : String
  url : String
  title : String
  content : List HtmlNode
  contentHash : String
  version : Int
  metadata : VisitMetadata
deriving Repr, DecidableEq

/-- clean_content (src/api/main.py lines 46-48): applies `markdownify` to the
raw content and returns the markdown text. -/
def clean_content (content : List HtmlNode) : String :=
  markdownify content

/-- Lines 54-58 of `record_visit`: query for the `Website` by url; if absent,
create it with `latest_version = 0` and flush (so it is visible and has a
primary key for the rest of the request). -/
def ensureWebsite (db : DB) (url : String) : WebsiteRow × DB :=
  match db.websites.find? (fun w => w.url == url) with
  | some w => (w, db)
  | none =>
      let w : WebsiteRow := { id := db.nextId, url := url, latestVersion := 0 }
      (w, { db with websites := db.websites ++ [w], nextId := db.nextId + 1 })

/-- Lines 77-85 of `record_visit`: when the metadata carries a geolocation, a
new `Geolocation` row is added for the new visit (always an insert, never an
update). -/
def addGeolocation (db : DB) (visitId : Nat) : Option GeolocationData → DB
  | none => db
  | some g =>
      { db with geolocations := db.geolocations ++
          [{ visitId := visitId, latitude := g.latitude, longitude := g.longitude }] }

/-- Body of the cookie loop, found case (lines 89-104): locate the first
committed cookie with this (name, domain); if found, set its `last_seen` and
append the current website to its association list unless already present.
Returns `none` when no committed cookie matches. -/
def upsertCookie (wid : Nat) (now : Int) (cd : CookieData) :
    List CookieRow → Option (List CookieRow)
  | [] => none
  | c :: cs =>
      if c.name == cd.name && c.domain == cd.domain then
        some ({ c with
                  lastSeen := now,
                  websites := if wid ∈ c.websites then c.websites
                              else c.websites ++ [wid] } :: cs)
      else
        (upsertCookie wid now cd cs).map (fun rest => c :: rest)

/-- One iteration of the cookie loop over the (committed, pending) pair: a
missed lookup creates a new cookie (it gets `last_seen = now` and, since its
association list starts empty, the membership test appends the current
website, leaving `websites = [wid]`). -/
def processCookie (wid : Nat) (now : Int)
    (acc : List CookieRow × List CookieRow) (cd : CookieData) :
    List CookieRow × List CookieRow :=
  match upsertCookie wid now cd acc.1 with
  | some committed => (committed, acc.2)
  | none =>
      (acc.1, acc.2 ++ [{ name := cd.name, domain := cd.domain, path := cd.path,
                          cookieRaw := cd.raw, lastSeen := now, websites := [wid] }])

/-- Lines 87-104 of `record_visit`: the cookie loop, with `db.commit()`
later concatenating pending inserts after the committed rows. -/
def processCookies (db : DB) (wid : Nat) (now : Int) (cds : List CookieData) : DB :=
  let p := cds.foldl (processCookie wid now) (db.cookies, [])
  { db with cookies := p.1 ++ p.2 }

/-- Body of the top-site loop, found case (lines 108-114): locate the first
committed top site with this url; set `last_seen`, and append the current
website to its association list unless already present. -/
def upsertTopSite (wid : Nat) (now : Int) (site : TopSiteData) :
    List TopSiteRow → Option (List TopSiteRow)
  | [] => none
  | t :: ts =>
      if t.url == site.url then
        some ({ t with
                  lastSeen := now,
                  websites := if wid ∈ t.websites then t.websites
                              else t.websites ++ [wid] } :: ts)
      else
        (upsertTopSite wid now site ts).map (fun rest => t :: rest)

/-- One iteration of the top-site loop over the (committed, pending) pair. -/
def processTopSite (wid : Nat) (now : Int)
    (acc : List TopSiteRow × List TopSiteRow) (site : TopSiteData) :
    List TopSiteRow × List TopSiteRow :=
  match upsertTopSite wid now site acc.1 with
  | some committed => (committed, acc.2)
  | none =>
      (acc.1, acc.2 ++ [{ url := site.url, title := site.title,
                          lastSeen := now, websites := [wid] }])

/-- Lines 106-114 of `record_visit`: the top-site loop. -/
def processTopSites (db : DB) (wid : Nat) (now : Int) (sites : List TopSiteData) : DB :=
  let p := sites.foldl (processTopSite wid now) (db.topSites, [])
  { db with topSites := p.1 ++ p.2 }

/-- Body of the browsing-history loop, found case (lines 118-125): locate the
first committed history row with this url; increment its `visit_count` and
set `last_visit_time` to the entry's time. -/
def upsertHistory (item : HistoryItem) :
    List HistoryRow → Option (List HistoryRow)
  | [] => none
  | h :: hs =>
      if h.url == item.url then
        some ({ h with visitCount := h.visitCount + 1,
                       lastVisitTime := item.lastVisitTime } :: hs)
      else
        (upsertHistory item hs).map (fun rest => h :: rest)

/-- One iteration of the history loop over the (committed, pending) pair: a
missed lookup creates a new row with `visit_count = 1` (lines 126-135). -/
def processHistoryItem (acc : List HistoryRow × List HistoryRow)
    (item : HistoryItem) : List HistoryRow × List HistoryRow :=
  match upsertHistory item acc.1 with
  | some committed => (committed, acc.2)
  | none =>
      (acc.1, acc.2 ++ [{ url := item.url, title := item.title,
                          lastVisitTime := item.lastVisitTime, visitCount := 1 }])

/-- Lines 116-135 of `record_visit`: the browsing-history loop. -/
def processHistories (db : DB) (items : List HistoryItem) : DB :=
  let p := items.foldl processHistoryItem (db.histories, [])
  { db with histories := p.1 ++ p.2 }

/-- Line 138 of `record_visit`: the in-place update
`website.latest_version = max(website.latest_version, visit_data.version)`
applied to the row with the current website's id. -/
def bumpLatest (wid : Nat) (v : Int) (w : WebsiteRow) : WebsiteRow :=
  if w.id == wid then { w with latestVersion := max w.latestVersion v } else w

/-- The database transaction of `record_visit` (src/api/main.py lines 54-140):
ensure the website, clean the content, insert the new `Visit` (storing the
client-proposed version and the request metadata defaults), insert the
optional geolocation, run the cookie / top-site / history loops, set
`latest_version = max(latest_version, visit_data.version)` on the website
object, and commit.  Returns the committed database and the new visit row. -/
def visitTransaction (db : DB) (vd : VisitData) (now : Int) : DB × VisitRow :=
  let wdb := ensureWebsite db vd.url
  let website := wdb.1
  let db1 := wdb.2
  let cleaned := clean_content vd.content
  let newVisit : VisitRow :=
    { id := db1.nextId,
      websiteId := website.id,
      timestamp := now,
      version := vd.version,
      contentHash := vd.contentHash,
      cleanedContent := cleaned,
      title := vd.title,
      isBookmarked := vd.metadata.isBookmarked.getD false,
      idleState := vd.metadata.idleState.getD "" }
  let db2 := { db1 with visits := db1.visits ++ [newVisit], nextId := db1.nextId + 1 }
  let db3 := addGeolocation db2 newVisit.id vd.metadata.geolocation
  let db4 := processCookies db3 website.id now (vd.metadata.cookies.getD [])
  let db5 := processTopSites db4 website.id now (vd.metadata.topSites.getD [])
  let db6 := processHistories db5 (vd.metadata.recentHistory.getD [])
  let db7 := { db6 with websites := db6.websites.map (bumpLatest website.id vd.version) }
  (db7, newVisit)

/-- The vector record written by `collection.add` (lines 142-153): document =
cleaned content, id = `str(new_visit.id)`, metadata = url, title, current
timestamp, client-proposed version. -/
def mkVectorRecord (vd : VisitData) (now : Int) (v : VisitRow) : VectorRecord :=
  { id := toString v.id,
    document := v.cleanedContent,
    url := vd.url,
    title := vd.title,
    timestamp := now,
    version := vd.version }

/-- Success response (line 156). -/
def successMessage (vd : VisitData) : String :=
  "Successfully recorded visit for " ++ vd.url ++ " Version: " ++ toString vd.version

/-- Failure injection points for one `record_visit` request: `noFail` is the
normal path; `atNormalization` models `clean_content` raising (line 61);
`atVectorStore` models `collection.add` raising (line 142), which happens
after `db.commit()` (line 140). -/
inductive FailPoint where
  | noFail
  | atNormalization
  | atVectorStore
deriving Repr, DecidableEq

/-- The POST /visit handler `record_visit` (src/api/main.py lines 51-157).
When `clean_content` raises, nothing has been committed: the session is
closed by the `get_db` dependency without `commit()`, so the pending website
insert of lines 54-58 rolls back and the observable state is unchanged.
When `collection.add` raises, the database transaction has already been
committed, so the relational writes persist while the collection is
unchanged.  The returned `Option String` is the success message, `none`
standing for an error response. -/
def record_visit (st : Store) (vd : VisitData) (now : Int) (fp : FailPoint) :
    Store × Option String :=
  if fp = FailPoint.atNormalization then
    (st, none)
  else
    let r := visitTransaction st.db vd now
    if fp = FailPoint.atVectorStore then
      ({ db := r.1, collection := st.collection }, none)
    else
      ({ db := r.1, collection := st.collection ++ [mkVectorRecord vd now r.2] },
       some (successMessage vd))

/-- The query of GET /latest_version (src/api/main.py lines 161-165) against
a database state: the stored `latest_version` of the website with this url,
or 0 when no such website exists. -/
def latestOf (db : DB) (url : String) : Int :=
  match db.websites.find? (fun w => w.url == url) with
  | some w => w.latestVersion
  | none => 0

/-- The GET /latest_version handler (src/api/main.py lines 160-165). -/
def get_latest_version (st : Store) (url : String) : Int :=
  latestOf st.db url

/-- The shape of one element of the `visits` list returned by GET /visits
(src/api/main.py lines 175-184). -/
structure VisitOut where
  timestamp : Int
  version : Int
  title : String
  isBookmarked : Bool
  idleState : String
deriving Repr, DecidableEq

/-- Projection of a `Visit` row to its GET /visits representation. -/
def toVisitOut (v : VisitRow) : VisitOut :=
  { timestamp := v.timestamp, version := v.version, title := v.title,
    isBookmarked := v.isBookmarked, idleState := v.idleState }

/-- The GET /visits handler (src/api/main.py lines 168-186): when the url is
known, every `Visit` row with this website id, in database order, with no
version filter and no ordering clause; `none` models the "No visits found"
message for an unknown url. -/
def get_visits (st : Store) (url : String) : Option (List VisitOut) :=
  match st.db.websites.find? (fun w => w.url == url) with
  | some w =>
      some ((st.db.visits.filter (fun v => v.websiteId == w.id)).map toVisitOut)
  | none => none

/-- A sequence of visit submissions applied in order, each with its request
instant and failure point. -/
def applySubmissions (st : Store) : List (VisitData × Int × FailPoint) → Store
  | [] => st
  | (vd, now, fp) :: rest => applySubmissions (record_visit st vd now fp).1 rest

/-- Statement-side helper: does the character list `needle` start the list
`hay`? -/
def startsWithChars : List Char → List Char → Bool
  | _, [] => true
  | [], _ :: _ => false
  | a :: as, b :: bs => a == b && startsWithChars as bs

/-- Statement-side helper: does `needle` occur inside `hay`? -/
def containsChars : List Char → List Char → Bool
  | [], needle => startsWithChars [] needle
  | a :: rest, needle => startsWithChars (a :: rest) needle || containsChars rest needle

/-- Statement-side helper: substring occurrence on strings, used to state
whether a URL appears in normalizer output. -/
def strContains (hay needle : String) : Bool :=
  containsChars hay.toList needle.toList

/-- Test fixture: a visit request for url `"a"`, title `"T"`, a one-node text
body, with the given content hash and proposed version, and an empty metadata
dict. -/
def sampleVisit (h : String) (v : Int) : VisitData :=
  { timestamp := "2024-01-01", url := "a", title := "T",
    content := [HtmlNode.text "body"], contentHash := h, version := v,
    metadata := VisitMetadata.emptyMeta }

/-- Test fixture: the store after submitting `sampleVisit "h" 1` once. -/
def storeAfterOne : Store :=
  (record_visit emptyStore (sampleVisit "h" 1) 0 FailPoint.noFail).1

/-- Test fixture: the store after submitting `sampleVisit "h" 1` twice — the
second submission has the same `(url, contentHash)` pair as the first. -/
def storeAfterTwo : Store :=
  (record_visit storeAfterOne (sampleVisit "h" 1) 1 FailPoint.noFail).1

/-- Test fixture: the store after submitting hash `"h1"` version 3 and then
hash `"h2"` version 2, both for url `"a"`. -/
def storeStale : Store :=
  applySubmissions emptyStore
    [(sampleVisit "h1" 3, 0, FailPoint.noFail), (sampleVisit "h2" 2, 1, FailPoint.noFail)]

/-- Test fixture: the store after four accepted submissions for url `"a"`
with versions 1, 2, 3 and 5. -/
def storeVersions : Store :=
  applySubmissions emptyStore
    [(sampleVisit "h1" 1, 0, FailPoint.noFail), (sampleVisit "h2" 2, 1, FailPoint.noFail),
     (sampleVisit "h3" 3, 2, FailPoint.noFail), (sampleVisit "h5" 5, 3, FailPoint.noFail)]

/-! ### Helper lemmas -/

theorem bumpLatest_url (wid : Nat) (v : Int) (w : WebsiteRow) :
    (bumpLatest wid v w).url = w.url := by
  unfold bumpLatest; split <;> rfl

theorem le_bumpLatest (wid : Nat) (v : Int) (w : WebsiteRow) :
    w.latestVersion ≤ (bumpLatest wid v w).latestVersion := by
  unfold bumpLatest; split
  · exact le_max_left _ _
  · exact le_refl _

theorem bumpLatest_self (v : Int) (w : WebsiteRow) :
    bumpLatest w.id v w = { w with latestVersion := max w.latestVersion v } := by
  simp [bumpLatest]

theorem find?_url_map_bumpLatest (l : List WebsiteRow) (wid : Nat) (v : Int) (u : String) :
    (l.map (bumpLatest wid v)).find? (fun w => w.url == u)
      = (l.find? (fun w => w.url == u)).map (bumpLatest wid v) := by
  rw [List.find?_map]
  have : ((fun w : WebsiteRow => w.url == u) ∘ bumpLatest wid v)
      = fun w : WebsiteRow => w.url == u := by
    funext w; simp [Function.comp, bumpLatest_url]
  rw [this]

theorem ensureWebsite_visits (db : DB) (url : String) :
    (ensureWebsite db url).2.visits = db.visits := by
  unfold ensureWebsite
  cases db.websites.find? (fun w => w.url == url) <;> rfl

theorem ensureWebsite_mem_websites (db : DB) (url : String) (x : WebsiteRow)
    (hx : x ∈ (ensureWebsite db url).2.websites) :
    x ∈ db.websites ∨ x.latestVersion = 0 := by
  unfold ensureWebsite at hx
  cases h : db.websites.find? (fun w => w.url == url) <;> rw [h] at hx
  · rcases List.mem_append.1 hx with h1 | h1
    · exact Or.inl h1
    · right
      simp only [List.mem_singleton] at h1
      rw [h1]
  · exact Or.inl hx

theorem addGeolocation_websites (db : DB) (vid : Nat) (g : Option GeolocationData) :
    (addGeolocation db vid g).websites = db.websites := by
  cases g <;> rfl

theorem addGeolocation_visits (db : DB) (vid : Nat) (g : Option GeolocationData) :
    (addGeolocation db vid g).visits = db.visits := by
  cases g <;> rfl

theorem processCookies_websites (db : DB) (wid : Nat) (now : Int) (cds : List CookieData) :
    (processCookies db wid now cds).websites = db.websites := rfl

theorem processCookies_visits (db : DB) (wid : Nat) (now : Int) (cds : List CookieData) :
    (processCookies db wid now cds).visits = db.visits := rfl

theorem processTopSites_websites (db : DB) (wid : Nat) (now : Int) (sites : List TopSiteData) :
    (processTopSites db wid now sites).websites = db.websites := rfl

theorem processTopSites_visits (db : DB) (wid : Nat) (now : Int) (sites : List TopSiteData) :
    (processTopSites db wid now sites).visits = db.visits := rfl

theorem processHistories_websites (db : DB) (items : List HistoryItem) :
    (processHistories db items).websites = db.websites := rfl

theorem processHistories_visits (db : DB) (items : List HistoryItem) :
    (processHistories db items).visits = db.visits := rfl

theorem visitTransaction_websites (db : DB) (vd : VisitData) (now : Int) :
    (visitTransaction db vd now).1.websites
      = ((ensureWebsite db vd.url).2.websites).map
          (bumpLatest (ensureWebsite db vd.url).1.id vd.version) := by
  unfold visitTransaction
  simp only [processHistories_websites, processTopSites_websites,
    processCookies_websites, addGeolocation_websites]

theorem visitTransaction_visits (db : DB) (vd : VisitData) (now : Int) :
    (visitTransaction db vd now).1.visits
      = db.visits ++ [(visitTransaction db vd now).2] := by
  unfold visitTransaction
  simp only [processHistories_visits, processTopSites_visits,
    processCookies_visits, addGeolocation_visits, ensureWebsite_visits]

theorem latestOf_vt_same_url (db : DB) (vd : VisitData) (now : Int) :
    latestOf (visitTransaction db vd now).1 vd.url
      = max (latestOf db vd.url) vd.version := by
  unfold latestOf
  rw [visitTransaction_websites]
  rcases h : db.websites.find? (fun w => w.url == vd.url) with _ | w
  · simp only [ensureWebsite, h]
    rw [List.map_append, List.find?_append, find?_url_map_bumpLatest, h]
    simp [List.find?, bumpLatest]
  · simp only [ensureWebsite, h]
    rw [find?_url_map_bumpLatest, h]
    simp [bumpLatest]

theorem latestOf_vt_mono (db : DB) (vd : VisitData) (now : Int) (u : String) :
    latestOf db u ≤ latestOf (visitTransaction db vd now).1 u := by
  unfold latestOf
  rw [visitTransaction_websites]
  rcases hw : db.websites.find? (fun w => w.url == vd.url) with _ | w
  · simp only [ensureWebsite, hw]
    rw [List.map_append, List.find?_append, find?_url_map_bumpLatest]
    rcases hu : db.websites.find? (fun x => x.url == u) with _ | x
    · simp only [hu, Option.map_none', Option.none_or]
      rcases hq : List.find? (fun w => w.url == u)
          (List.map (bumpLatest db.nextId vd.version)
            [{ id := db.nextId, url := vd.url, latestVersion := 0 }]) with _ | y
      · simp only [hq]
        exact le_refl (0 : Int)
      · have hmem := List.mem_of_find?_eq_some hq
        simp only [List.map_cons, List.map_nil, List.mem_singleton] at hmem
        simp only [hq, hmem]
        simp [bumpLatest]
    · have : (Option.map (bumpLatest db.nextId vd.version) (some x)).or
          (List.find? (fun w => w.url == u)
            (List.map (bumpLatest db.nextId vd.version)
              [{ id := db.nextId, url := vd.url, latestVersion := 0 }]))
          = some (bumpLatest db.nextId vd.version x) := rfl
      simp only [hu, this]
      exact le_bumpLatest _ _ _
  · simp only [ensureWebsite, hw]
    rw [find?_url_map_bumpLatest]
    rcases hu : db.websites.find? (fun x => x.url == u) with _ | x
    · simp [hu]
    · simp only [hu, Option.map_some']
      exact le_bumpLatest _ _ _

theorem record_visit_noFail (st : Store) (vd : VisitData) (now : Int) :
    record_visit st vd now FailPoint.noFail
      = ({ db := (visitTransaction st.db vd now).1,
           collection := st.collection
             ++ [mkVectorRecord vd now (visitTransaction st.db vd now).2] },
         some (successMessage vd)) := rfl

theorem record_visit_atNormalization (st : Store) (vd : VisitData) (now : Int) :
    record_visit st vd now FailPoint.atNormalization = (st, none) := rfl

theorem record_visit_atVectorStore (st : Store) (vd : VisitData) (now : Int) :
    record_visit st vd now FailPoint.atVectorStore
      = ({ db := (visitTransaction st.db vd now).1, collection := st.collection },
         none) := rfl

theorem visitTransaction_snd_version (db : DB) (vd : VisitData) (now : Int) :
    (visitTransaction db vd now).2.version = vd.version := rfl

theorem visitTransaction_snd_contentHash (db : DB) (vd : VisitData) (now : Int) :
    (visitTransaction db vd now).2.contentHash = vd.contentHash := rfl

theorem record_visit_success_shape (st : Store) (vd : VisitData) (now : Int) :
    ∃ nv : VisitRow,
      (record_visit st vd now FailPoint.noFail).1.db.visits = st.db.visits ++ [nv]
      ∧ nv.version = vd.version
      ∧ nv.contentHash = vd.contentHash
      ∧ (record_visit st vd now FailPoint.noFail).1.collection
          = st.collection ++ [mkVectorRecord vd now nv]
      ∧ (record_visit st vd now FailPoint.noFail).2 = some (successMessage vd) := by
  refine ⟨(visitTransaction st.db vd now).2, ?_, rfl, rfl, rfl, rfl⟩
  rw [record_visit_noFail]
  exact visitTransaction_visits st.db vd now

theorem get_latest_version_noFail (st : Store) (vd : VisitData) (now : Int) :
    get_latest_version (record_visit st vd now FailPoint.noFail).1 vd.url
      = max (get_latest_version st vd.url) vd.version := by
  rw [record_visit_noFail]
  exact latestOf_vt_same_url st.db vd now

theorem vt_websites_nonneg (db : DB) (vd : VisitData) (now : Int)
    (h : ∀ w ∈ db.websites, 0 ≤ w.latestVersion) :
    ∀ w ∈ (visitTransaction db vd now).1.websites, 0 ≤ w.latestVersion := by
  intro w hw
  rw [visitTransaction_websites] at hw
  rcases List.mem_map.1 hw with ⟨x, hx, rfl⟩
  rcases ensureWebsite_mem_websites db vd.url x hx with h1 | h1
  · exact le_trans (h x h1) (le_bumpLatest _ _ _)
  · exact le_trans (le_of_eq h1.symm) (le_bumpLatest _ _ _)

theorem record_visit_websites_nonneg (st : Store) (vd : VisitData) (now : Int)
    (fp : FailPoint) (h : ∀ w ∈ st.db.websites, 0 ≤ w.latestVersion) :
    ∀ w ∈ (record_visit st vd now fp).1.db.websites, 0 ≤ w.latestVersion := by
  cases fp
  · intro w hw
    exact vt_websites_nonneg st.db vd now h w hw
  · exact h
  · intro w hw
    exact vt_websites_nonneg st.db vd now h w hw

theorem applySubmissions_websites_nonneg
    (subs : List (VisitData × Int × FailPoint)) (st : Store)
    (h : ∀ w ∈ st.db.websites, 0 ≤ w.latestVersion) :
    ∀ w ∈ (applySubmissions st subs).db.websites, 0 ≤ w.latestVersion := by
  induction subs generalizing st with
  | nil => exact h
  | cons s rest ih =>
      exact ih (record_visit st s.1 s.2.1 s.2.2).1
        (record_visit_websites_nonneg st s.1 s.2.1 s.2.2 h)

/-- C2: for every URL, a visit submission — whatever its request data,
request instant and failure point — never leaves the website's
`latest_version` lower than it was before that submission: line 138 only ever
replaces it by `max(latest_version, proposed_version)`. -/
theorem latest_version_nondecreasing (st : Store) (vd : VisitData) (now : Int)
    (fp : FailPoint) (url : String) :
    get_latest_version st url ≤ get_latest_version (record_visit st vd now fp).1 url := by
  cases fp
  · exact latestOf_vt_mono st.db vd now url
  · exact le_refl _
  · exact latestOf_vt_mono st.db vd now url

/-- C9: in every store reachable from a fresh deployment by any sequence of
visit submissions (including submissions proposing negative version numbers),
every website's `latest_version` is at least 0: it is created at 0 and only
ever updated to `max(latest_version, proposed_version)`. -/
theorem latest_version_nonneg (subs : List (VisitData × Int × FailPoint))
    (w : WebsiteRow) (hw : w ∈ (applySubmissions emptyStore subs).db.websites) :
    0 ≤ w.latestVersion := by
  refine applySubmissions_websites_nonneg subs emptyStore ?_ w hw
  intro x hx
  simp [emptyStore] at hx

/-- Witness for C9: one submission with proposed version 1 yields the website
row `(0, "a", 1)`, whose latest_version is non-negative. -/
theorem latest_version_nonneg_witness :
    ({ id := 0, url := "a", latestVersion := 1 } : WebsiteRow)
        ∈ (applySubmissions emptyStore
            [(sampleVisit "h" 1, 0, FailPoint.noFail)]).db.websites
      ∧ (0 : Int) ≤ ({ id := 0, url := "a", latestVersion := 1 } : WebsiteRow).latestVersion :=
  ⟨by decide,
   latest_version_nonneg [(sampleVisit "h" 1, 0, FailPoint.noFail)]
     { id := 0, url := "a", latestVersion := 1 } (by decide)⟩

/-- Counterexample to C1: submitting `(url="a", contentHash="h")` twice from
a fresh deployment.  The claim says the second call returns Duplicate and
changes nothing; in the code the second call creates a second Visit row with
the same `(url, contentHash)` pair, writes a second vector record, and
returns the ordinary success message. -/
theorem duplicate_hash_counterexample :
    storeAfterOne.db.visits.length = 1
    ∧ storeAfterTwo.db.visits.length = 2
    ∧ (storeAfterTwo.db.visits.filter
        (fun v => v.contentHash == "h")).length = 2
    ∧ storeAfterOne.collection.length = 1
    ∧ storeAfterTwo.collection.length = 2
    ∧ (record_visit storeAfterOne (sampleVisit "h" 1) 1 FailPoint.noFail).2
        = some (successMessage (sampleVisit "h" 1)) := by
  exact ⟨by decide, by decide, by decide, by decide, by decide, by decide⟩

/-- C1 (amended): `record_visit` never checks for an existing
`(url, contentHash)` pair; a submission whose pair already has a recorded
Visit is processed like any other submission — a new Visit row carrying this
hash is appended, a new vector record is written, the success message is
returned, and `latest_version` becomes `max(latest_version, proposed)` (so a
resubmission proposing an already-covered version leaves it unchanged). -/
theorem duplicate_hash_accepted (st : Store) (vd : VisitData) (now : Int)
    (_hdup : ∃ w ∈ st.db.websites, w.url = vd.url
        ∧ ∃ v ∈ st.db.visits, v.websiteId = w.id ∧ v.contentHash = vd.contentHash) :
    ∃ nv : VisitRow,
      (record_visit st vd now FailPoint.noFail).1.db.visits = st.db.visits ++ [nv]
      ∧ nv.contentHash = vd.contentHash
      ∧ (record_visit st vd now FailPoint.noFail).1.collection
          = st.collection ++ [mkVectorRecord vd now nv]
      ∧ (record_visit st vd now FailPoint.noFail).2 = some (successMessage vd)
      ∧ get_latest_version (record_visit st vd now FailPoint.noFail).1 vd.url
          = max (get_latest_version st vd.url) vd.version := by
  rcases record_visit_success_shape st vd now with ⟨nv, h1, _, h3, h4, h5⟩
  exact ⟨nv, h1, h3, h4, h5, get_latest_version_noFail st vd now⟩

/-- Witness for C1 (amended): the store after one submission of
`sampleVisit "h" 1` does contain a Visit for `("a", "h")`, and resubmitting
the same data is accepted as described. -/
theorem duplicate_hash_accepted_witness :
    (∃ w ∈ storeAfterOne.db.websites, w.url = (sampleVisit "h" 1).url
        ∧ ∃ v ∈ storeAfterOne.db.visits, v.websiteId = w.id
            ∧ v.contentHash = (sampleVisit "h" 1).contentHash)
    ∧ ∃ nv : VisitRow,
      (record_visit storeAfterOne (sampleVisit "h" 1) 1 FailPoint.noFail).1.db.visits
          = storeAfterOne.db.visits ++ [nv]
      ∧ nv.contentHash = (sampleVisit "h" 1).contentHash
      ∧ (record_visit storeAfterOne (sampleVisit "h" 1) 1 FailPoint.noFail).1.collection
          = storeAfterOne.collection ++ [mkVectorRecord (sampleVisit "h" 1) 1 nv]
      ∧ (record_visit storeAfterOne (sampleVisit "h" 1) 1 FailPoint.noFail).2
          = some (successMessage (sampleVisit "h" 1))
      ∧ get_latest_version
            (record_visit storeAfterOne (sampleVisit "h" 1) 1 FailPoint.noFail).1
            (sampleVisit "h" 1).url
          = max (get_latest_version storeAfterOne (sampleVisit "h" 1).url)
              (sampleVisit "h" 1).version :=
  ⟨by decide, duplicate_hash_accepted storeAfterOne (sampleVisit "h" 1) 1 (by decide)⟩

/-- Counterexample to C3: submitting `(url="a", h1, version=3)` and then
`(url="a", h2, version=2)`.  The claim says the second Visit is stored with
version `max(3,2)=3`; in the code (line 67) the Visit stores the
client-proposed version 2, while `latest_version` stays 3. -/
theorem stored_version_counterexample :
    (storeStale.db.visits.filter (fun v => v.contentHash == "h2")).map
        (fun v => v.version) = [2]
    ∧ (2 : Int) ≠ 3
    ∧ get_latest_version storeStale "a" = 3 := by
  exact ⟨by decide, by decide, by decide⟩

/-- C3 (amended): for every accepted submission the newly created Visit
stores the client-proposed version unchanged (line 67), while the Website's
`latest_version` is updated to `max(latest_version, proposed_version)`
(line 138); in the example, the second Visit stores version 2 and
`latest_version` stays 3. -/
theorem stored_version_is_proposed (st : Store) (vd : VisitData) (now : Int) :
    ∃ nv : VisitRow,
      (record_visit st vd now FailPoint.noFail).1.db.visits = st.db.visits ++ [nv]
      ∧ nv.version = vd.version
      ∧ get_latest_version (record_visit st vd now FailPoint.noFail).1 vd.url
          = max (get_latest_version st vd.url) vd.version := by
  rcases record_visit_success_shape st vd now with ⟨nv, h1, h2, _, _, _⟩
  exact ⟨nv, h1, h2, get_latest_version_noFail st vd now⟩

/-- Test fixture: the result of a submission whose `collection.add` call
fails, starting from a fresh deployment. -/
def storeVectorFail : Store :=
  (record_visit emptyStore (sampleVisit "h" 1) 0 FailPoint.atVectorStore).1

/-- Counterexample to C4: a vector-store failure is not all-or-nothing.  The
request fails (no success response) and no vector record is written, yet the
Visit row for `("a", "h")` exists and `latest_version` has advanced from 0
to 1, because `db.commit()` (line 140) runs before `collection.add`
(line 142). -/
theorem partial_failure_counterexample :
    (record_visit emptyStore (sampleVisit "h" 1) 0 FailPoint.atVectorStore).2 = none
    ∧ storeVectorFail.collection = []
    ∧ (storeVectorFail.db.visits.filter (fun v => v.contentHash == "h")).length = 1
    ∧ get_latest_version storeVectorFail "a" = 1
    ∧ get_latest_version emptyStore "a" = 0 := by
  exact ⟨by decide, by decide, by decide, by decide, by decide⟩

/-- C4 (amended): a normalization failure aborts before `db.commit()`, so the
session closes without committing and the observable state is unchanged; but
a vector-store (embedding) failure happens after `db.commit()`, so the
relational writes persist in full — the new Visit row exists and
`latest_version` has been advanced to `max(latest_version, proposed)` — while
the collection is untouched and the request reports failure. -/
theorem failure_semantics (st : Store) (vd : VisitData) (now : Int) :
    record_visit st vd now FailPoint.atNormalization = (st, none)
    ∧ (record_visit st vd now FailPoint.atVectorStore).2 = none
    ∧ (record_visit st vd now FailPoint.atVectorStore).1.collection = st.collection
    ∧ (record_visit st vd now FailPoint.atVectorStore).1.db
        = (record_visit st vd now FailPoint.noFail).1.db
    ∧ (∃ nv : VisitRow,
        (record_visit st vd now FailPoint.atVectorStore).1.db.visits
          = st.db.visits ++ [nv])
    ∧ get_latest_version (record_visit st vd now FailPoint.atVectorStore).1 vd.url
        = max (get_latest_version st vd.url) vd.version := by
  refine ⟨rfl, rfl, rfl, rfl, ⟨(visitTransaction st.db vd now).2, ?_⟩, ?_⟩
  · exact visitTransaction_visits st.db vd now
  · exact latestOf_vt_same_url st.db vd now

/-- Counterexample to C5: two submissions with the same `(url, version)` pair
(indeed, byte-identical requests).  The claim says both vector writes go to
the deterministic composite identifier `"a:1"`; in the code the identifier is
`str(new_visit.id)` (line 152), so the two records get the two distinct fresh
identifiers `"1"` and `"2"`, neither of which is `"a:1"`. -/
theorem vector_id_counterexample :
    storeAfterTwo.collection.map (fun r => r.id) = ["1", "2"]
    ∧ ("1" : String) ≠ "2"
    ∧ ("1" : String) ≠ "a:1"
    ∧ ("2" : String) ≠ "a:1" := by
  exact ⟨by decide, by decide, by decide, by decide⟩

/-- C5 (amended): the identifier of the vector record written for an accepted
visit is the string form of the newly created Visit row's database id — an
identifier fresh to each call, not derived from `(url, version)` — so
re-running ingestion of the same visit appends a second record under a new
identifier instead of overwriting the first. -/
theorem vector_id_is_visit_id (st : Store) (vd : VisitData) (now now' : Int) :
    (∃ nv : VisitRow,
      (record_visit st vd now FailPoint.noFail).1.db.visits = st.db.visits ++ [nv]
      ∧ (record_visit st vd now FailPoint.noFail).1.collection
          = st.collection ++ [mkVectorRecord vd now nv]
      ∧ (mkVectorRecord vd now nv).id = toString nv.id)
    ∧ (applySubmissions st
        [(vd, now, FailPoint.noFail), (vd, now', FailPoint.noFail)]).collection.length
      = st.collection.length + 2 := by
  constructor
  · rcases record_visit_success_shape st vd now with ⟨nv, h1, _, _, h3, _⟩
    exact ⟨nv, h1, h3, rfl⟩
  · show ((record_visit (record_visit st vd now FailPoint.noFail).1 vd now'
        FailPoint.noFail).1.collection).length = st.collection.length + 2
    rcases record_visit_success_shape st vd now with ⟨nv, _, _, _, h3, _⟩
    rcases record_visit_success_shape (record_visit st vd now FailPoint.noFail).1
      vd now' with ⟨nv', _, _, _, h3', _⟩
    rw [h3', h3]
    simp

theorem markdownify_append (xs ys : List HtmlNode) :
    markdownify (xs ++ ys) = markdownify xs ++ markdownify ys := by
  induction xs with
  | nil => simp [markdownify]
  | cons n rest ih =>
      cases n <;> simp [markdownify, ih, String.append_assoc]

/-- Counterexample to C6: normalizing a fragment containing
`<a href="/x">x</a>` yields `[x](/x)` — the relative reference is kept
verbatim and the output does not contain the absolute URL
`https://site.test/x` the claim requires (there is no base-URL parameter at
all: `clean_content` is a function of the markup alone). -/
theorem link_resolution_counterexample :
    clean_content [HtmlNode.anchor "/x" "x"] = "[x](/x)"
    ∧ strContains (clean_content [HtmlNode.anchor "/x" "x"]) "https://site.test/x" = false
    ∧ strContains (clean_content [HtmlNode.anchor "/x" "x"]) "(/x)" = true := by
  exact ⟨by decide, by decide, by decide⟩

/-- C6 (amended): `clean_content` converts markup to markdown with no base
URL and no reference resolution: every anchor's href value is copied into the
output verbatim, so `<a href="/x">` yields the still-relative link `(/x)`
wherever the anchor occurs in the document. -/
theorem clean_content_keeps_href (pre post : List HtmlNode) (href body : String) :
    clean_content (pre ++ HtmlNode.anchor href body :: post)
      = markdownify pre ++ ("[" ++ body ++ "](" ++ href ++ ")" ++ markdownify post) := by
  unfold clean_content
  rw [markdownify_append]
  rfl

/-- Counterexample to C7: a URL holding versions 1, 2, 3, 5.  The claim says
a version-range read for `[2,4]` returns exactly versions 2 and 3; the only
visit-read operation in the code takes no version bounds and returns every
Visit of the URL — here all four versions — with no range restriction. -/
theorem version_range_counterexample :
    Option.map (fun l => l.map (fun o => o.version)) (get_visits storeVersions "a")
      = some [1, 2, 3, 5]
    ∧ some [(1 : Int), 2, 3, 5] ≠ some [(2 : Int), 3] := by
  exact ⟨by decide, by decide⟩

/-- C7 (amended): GET /visits takes only the URL.  For a known URL it returns
the projection of every Visit row of that website, in database order, with no
version filtering and no sorting clause — in particular every Visit of the
website appears in the response whatever its version. -/
theorem get_visits_returns_all (st : Store) (url : String) (w : WebsiteRow)
    (hw : st.db.websites.find? (fun x => x.url == url) = some w) :
    get_visits st url
      = some ((st.db.visits.filter (fun v => v.websiteId == w.id)).map toVisitOut)
    ∧ ∀ v ∈ st.db.visits, v.websiteId = w.id →
        toVisitOut v
          ∈ (st.db.visits.filter (fun v => v.websiteId == w.id)).map toVisitOut := by
  constructor
  · unfold get_visits
    rw [hw]
  · intro v hv hid
    exact List.mem_map_of_mem _ (List.mem_filter.2 ⟨hv, by simp [hid]⟩)

/-- Witness for C7 (amended): the four-version store of the counterexample,
whose website row is `(0, "a", 5)`. -/
theorem get_visits_returns_all_witness :
    storeVersions.db.websites.find? (fun x => x.url == "a")
        = some { id := 0, url := "a", latestVersion := 5 }
    ∧ (get_visits storeVersions "a"
        = some ((storeVersions.db.visits.filter (fun v => v.websiteId == 0)).map toVisitOut)
      ∧ ∀ v ∈ storeVersions.db.visits, v.websiteId = 0 →
          toVisitOut v
            ∈ (storeVersions.db.visits.filter (fun v => v.websiteId == 0)).map toVisitOut) :=
  ⟨by decide,
   get_visits_returns_all storeVersions "a"
     { id := 0, url := "a", latestVersion := 5 } (by decide)⟩

theorem upsertHistory_of_found (item : HistoryItem) (pre post : List HistoryRow)
    (r : HistoryRow) (hpre : ∀ p ∈ pre, p.url ≠ item.url) (hr : r.url = item.url) :
    upsertHistory item (pre ++ r :: post)
      = some (pre ++ { r with visitCount := r.visitCount + 1,
                              lastVisitTime := item.lastVisitTime } :: post) := by
  induction pre with
  | nil => simp [upsertHistory, hr]
  | cons p ps ih =>
      have hb : (p.url == item.url) = false :=
        beq_eq_false_iff_ne.mpr (hpre p (List.mem_cons_self _ _))
      have ih' := ih (fun q hq => hpre q (List.mem_cons_of_mem _ hq))
      simp [upsertHistory, hb, ih']

theorem upsertHistory_of_missing (item : HistoryItem) (l : List HistoryRow)
    (h : ∀ p ∈ l, p.url ≠ item.url) : upsertHistory item l = none := by
  induction l with
  | nil => rfl
  | cons p ps ih =>
      have hb : (p.url == item.url) = false :=
        beq_eq_false_iff_ne.mpr (h p (List.mem_cons_self _ _))
      have ih' := ih (fun q hq => h q (List.mem_cons_of_mem _ hq))
      simp [upsertHistory, hb, ih']

/-- C8: each `recentHistory` entry upserts the browsing-history table keyed
by url.  If a (committed) record with the entry's url exists, the first such
record gets its `visit_count` incremented by one and its `last_visit_time`
set to the entry's time, and nothing else changes; if no record with that url
exists, a new record with `visit_count = 1` and the entry's url, title and
time is added (as a pending insert), and the existing records are untouched. -/
theorem history_upsert_spec (pending pre post : List HistoryRow)
    (r : HistoryRow) (item : HistoryItem) :
    ((∀ p ∈ pre, p.url ≠ item.url) → r.url = item.url →
       processHistoryItem (pre ++ r :: post, pending) item
         = (pre ++ { r with visitCount := r.visitCount + 1,
                            lastVisitTime := item.lastVisitTime } :: post, pending))
    ∧ (∀ committed : List HistoryRow, (∀ p ∈ committed, p.url ≠ item.url) →
       processHistoryItem (committed, pending) item
         = (committed, pending ++ [{ url := item.url, title := item.title,
                                     lastVisitTime := item.lastVisitTime,
                                     visitCount := 1 }])) := by
  constructor
  · intro hpre hr
    unfold processHistoryItem
    rw [upsertHistory_of_found item pre post r hpre hr]
  · intro committed h
    unfold processHistoryItem
    rw [upsertHistory_of_missing item committed h]

/-- Witness for C8: an existing record for url `"u"` with count 1 is updated
to count 2 and the entry's time; with no record for `"u"`, a fresh record
with count 1 is created. -/
theorem history_upsert_spec_witness :
    processHistoryItem ([{ url := "u", title := "t", lastVisitTime := 0, visitCount := 1 }], [])
        { url := "u", title := "t2", lastVisitTime := 99 }
      = ([{ url := "u", title := "t", lastVisitTime := 99, visitCount := 2 }], [])
    ∧ processHistoryItem ([], [])
        { url := "u", title := "t2", lastVisitTime := 99 }
      = ([], [{ url := "u", title := "t2", lastVisitTime := 99, visitCount := 1 }]) :=
  ⟨(history_upsert_spec [] [] []
      { url := "u", title := "t", lastVisitTime := 0, visitCount := 1 }
      { url := "u", title := "t2", lastVisitTime := 99 }).1 (by simp) rfl,
   (history_upsert_spec [] [] []
      { url := "u", title := "t", lastVisitTime := 0, visitCount := 1 }
      { url := "u", title := "t2", lastVisitTime := 99 }).2 [] (by simp)⟩

theorem upsertCookie_of_found (wid : Nat) (now : Int) (cd : CookieData)
    (pre post : List CookieRow) (c : CookieRow)
    (hpre : ∀ x ∈ pre, ¬(x.name = cd.name ∧ x.domain = cd.domain))
    (hn : c.name = cd.name) (hd : c.domain = cd.domain) :
    upsertCookie wid now cd (pre ++ c :: post)
      = some (pre ++ { c with lastSeen := now,
                              websites := if wid ∈ c.websites then c.websites
                                          else c.websites ++ [wid] } :: post) := by
  induction pre with
  | nil => simp [upsertCookie, hn, hd]
  | cons p ps ih =>
      have hb : (p.name == cd.name && p.domain == cd.domain) = false := by
        by_cases h1 : p.name = cd.name
        · by_cases h2 : p.domain = cd.domain
          · exact absurd ⟨h1, h2⟩ (hpre p (List.mem_cons_self _ _))
          · simp [h2]
        · simp [h1]
      have ih' := ih (fun q hq => hpre q (List.mem_cons_of_mem _ hq))
      simp [upsertCookie, hb, ih']

theorem upsertTopSite_of_found (wid : Nat) (now : Int) (site : TopSiteData)
    (pre post : List TopSiteRow) (t : TopSiteRow)
    (hpre : ∀ x ∈ pre, x.url ≠ site.url) (ht : t.url = site.url) :
    upsertTopSite wid now site (pre ++ t :: post)
      = some (pre ++ { t with lastSeen := now,
                              websites := if wid ∈ t.websites then t.websites
                                          else t.websites ++ [wid] } :: post) := by
  induction pre with
  | nil => simp [upsertTopSite, ht]
  | cons p ps ih =>
      have hb : (p.url == site.url) = false :=
        beq_eq_false_iff_ne.mpr (hpre p (List.mem_cons_self _ _))
      have ih' := ih (fun q hq => hpre q (List.mem_cons_of_mem _ hq))
      simp [upsertTopSite, hb, ih']

/-- C10: linking the cookie and top-site registries to a website is
idempotent.  When the cookie loop finds the (first) committed cookie with the
submitted `(name, domain)` and the current website is already in that
cookie's association list, the iteration only refreshes `last_seen`: every
association list is left exactly as it was and no row is added.  The same
holds for a top site found by `url` whose association list already contains
the website. -/
theorem website_link_idempotent (wid : Nat) (now : Int)
    (cd : CookieData) (c : CookieRow) (preC postC pendC : List CookieRow)
    (site : TopSiteData) (t : TopSiteRow) (preT postT pendT : List TopSiteRow) :
    ((∀ x ∈ preC, ¬(x.name = cd.name ∧ x.domain = cd.domain)) →
       c.name = cd.name → c.domain = cd.domain → wid ∈ c.websites →
       processCookie wid now (preC ++ c :: postC, pendC) cd
         = (preC ++ { c with lastSeen := now } :: postC, pendC))
    ∧ ((∀ x ∈ preT, x.url ≠ site.url) → t.url = site.url → wid ∈ t.websites →
       processTopSite wid now (preT ++ t :: postT, pendT) site
         = (preT ++ { t with lastSeen := now } :: postT, pendT)) := by
  constructor
  · intro hpre hn hd hmem
    unfold processCookie
    rw [upsertCookie_of_found wid now cd preC postC c hpre hn hd]
    simp [if_pos hmem]
  · intro hpre ht hmem
    unfold processTopSite
    rw [upsertTopSite_of_found wid now site preT postT t hpre ht]
    simp [if_pos hmem]

/-- Witness for C10: a cookie `("sid", "d.test")` and a top site `"s.test"`
already linked to website 7; processing matching metadata entries again only
refreshes `last_seen`, leaving both association lists at `[7]`. -/
theorem website_link_idempotent_witness :
    processCookie 7 5
        ([{ name := "sid", domain := "d.test", path := "/", cookieRaw := "raw",
            lastSeen := 0, websites := [7] }], [])
        { name := "sid", domain := "d.test", path := "/", raw := "raw" }
      = ([{ name := "sid", domain := "d.test", path := "/", cookieRaw := "raw",
            lastSeen := 5, websites := [7] }], [])
    ∧ processTopSite 7 5
        ([{ url := "s.test", title := "S", lastSeen := 0, websites := [7] }], [])
        { url := "s.test", title := "S" }
      = ([{ url := "s.test", title := "S", lastSeen := 5, websites := [7] }], []) :=
  ⟨(website_link_idempotent 7 5
      { name := "sid", domain := "d.test", path := "/", raw := "raw" }
      { name := "sid", domain := "d.test", path := "/", cookieRaw := "raw",
        lastSeen := 0, websites := [7] } [] [] []
      { url := "s.test", title := "S" }
      { url := "s.test", title := "S", lastSeen := 0, websites := [7] }
      [] [] []).1 (by simp) rfl rfl (by decide),
   (website_link_idempotent 7 5
      { name := "sid", domain := "d.test", path := "/", raw := "raw" }
      { name := "sid", domain := "d.test", path := "/", cookieRaw := "raw",
        lastSeen := 0, websites := [7] } [] [] []
      { url := "s.test", title := "S" }
      { url := "s.test", title := "S", lastSeen := 0, websites := [7] }
      [] [] []).2 (by simp) rfl (by decide)⟩
